import Mathlib

/-!
Verification development for the Text-to-Speech single-page UI
(src/project/src/App.tsx). The component state held by React hooks is
modelled as a record `AppState`; each event handler becomes a pure
function from the platform's reported speaking flag and the current
state to the next state together with the list of commands it issues to
the platform speech capability.
-/

namespace TTS

/-- Voice record, matching the `Voice` interface in App.tsx. -/
structure Voice where
  name : String
  lang : String
  voiceURI : String
deriving DecidableEq

/-- Utterance request, matching the fields set on the
`SpeechSynthesisUtterance` in `handleSpeak` (App.tsx lines 42-45).
Rates and pitches are modelled as rationals. `voice` is `none` when
`voices.find(...) || null` yields `null`. -/
structure Utterance where
  text : String
  voice : Option Voice
  rate : ℚ
  pitch : ℚ
deriving DecidableEq

/-- Commands the controller issues to the platform speech capability:
`speechSynthesis.cancel()`, `.speak(u)`, `.pause()`, `.resume()`. -/
inductive Command where
  | cancel : Command
  | speak : Utterance → Command
  | pause : Command
  | resume : Command
deriving DecidableEq

/-- The React component state (App.tsx lines 11-17): text buffer, voice
catalog, selected voice id (`''` when none), rate, pitch, playback flag,
settings-panel visibility. -/
structure AppState where
  text : String
  voices : List Voice
  selectedVoice : String
  rate : ℚ
  pitch : ℚ
  isPlaying : Bool
  showSettings : Bool
deriving DecidableEq

/-- The initial hook values (App.tsx lines 11-17). -/
def initialState : AppState :=
  { text := "", voices := [], selectedVoice := "", rate := 1, pitch := 1,
    isPlaying := false, showSettings := false }

/-- The `loadVoices` closure (App.tsx lines 22-28): store the list the
platform returned; when it is non-empty, select the first entry's
`voiceURI`. Run at mount and on every `voiceschanged` notification. -/
def loadVoices (availableVoices : List Voice) (s : AppState) : AppState :=
  let s1 : AppState := { s with voices := availableVoices }
  if h : 0 < availableVoices.length then
    { s1 with selectedVoice := (availableVoices.get ⟨0, h⟩).voiceURI }
  else s1

/-- The `handleSpeak` handler (App.tsx lines 36-53). `speaking` is the
value of `speechSynthesis.speaking` at entry. The handler calls no state
setter itself: `setIsPlaying` only runs inside the utterance callbacks,
so the returned state is the input state. When `speaking` it first
issues `cancel`; when the text buffer is truthy (non-empty) it builds
the utterance from current state and issues `speak`. -/
def handleSpeak (speaking : Bool) (s : AppState) : AppState × List Command :=
  (s,
    (if speaking then [Command.cancel] else []) ++
    (if s.text = "" then [] else
      [Command.speak
        { text := s.text,
          voice := s.voices.find? (fun v => v.voiceURI == s.selectedVoice),
          rate := s.rate,
          pitch := s.pitch }]))

/-- The `onstart` callback (App.tsx line 47): `setIsPlaying(true)`. -/
def onStart (s : AppState) : AppState := { s with isPlaying := true }

/-- The `onend` callback (App.tsx line 48): `setIsPlaying(false)`. -/
def onEnd (s : AppState) : AppState := { s with isPlaying := false }

/-- The `onerror` callback (App.tsx line 49): `setIsPlaying(false)`. -/
def onError (s : AppState) : AppState := { s with isPlaying := false }

/-- The `handlePause` handler (App.tsx lines 55-64): when the platform
reports activity (`speechSynthesis.speaking`), issue `pause` if the
local flag says Speaking, `resume` otherwise, and flip the flag;
otherwise do nothing. -/
def handlePause (speaking : Bool) (s : AppState) : AppState × List Command :=
  if speaking then
    ({ s with isPlaying := !s.isPlaying },
     [if s.isPlaying then Command.pause else Command.resume])
  else (s, [])

/-- The `handleStop` handler (App.tsx lines 66-69): issue `cancel` and
set the flag to false, unconditionally. -/
def handleStop (s : AppState) : AppState × List Command :=
  ({ s with isPlaying := false }, [Command.cancel])

/-- A file produced by the client-side download path. -/
structure DownloadFile where
  filename : String
  content : String
deriving DecidableEq

/-- The `handleDownload` handler (App.tsx lines 71-79): serialize the
current text buffer into a plain-text blob downloaded under the fixed
name `speech-text.txt`. -/
def handleDownload (s : AppState) : DownloadFile :=
  { filename := "speech-text.txt", content := s.text }

/-- Disabled condition of the Play button (App.tsx line 111):
`!text || isPlaying`. -/
def playDisabled (s : AppState) : Bool :=
  (s.text == "") || s.isPlaying

/-- Disabled condition of the Pause/Resume button (App.tsx line 119):
`!speechSynthesis.speaking`. -/
def pauseDisabled (speaking : Bool) : Bool := !speaking

/-- Disabled condition of the Download button (App.tsx line 136):
`!text`. -/
def downloadDisabled (s : AppState) : Bool := s.text == ""

/-- The rate-slider change handler (App.tsx line 177). -/
def setRate (r : ℚ) (s : AppState) : AppState := { s with rate := r }

/-- The pitch-slider change handler (App.tsx line 192). -/
def setPitch (p : ℚ) (s : AppState) : AppState := { s with pitch := p }

/-- Clamping to the sliders' interval `[0.5, 2.0]` (the `min`/`max`
attributes on App.tsx lines 173-174 and 188-189). -/
def clampRange (x : ℚ) : ℚ := max (1/2) (min 2 x)

end TTS

namespace TTS

/-- A concrete state with a non-empty text buffer, used by witnesses. -/
def sampleState : AppState := { initialState with text := "hi" }

/-- C1: whenever the platform reports an utterance already in progress
(`speechSynthesis.speaking` true), `handleSpeak` issues `cancel` as its
first command, and every later command it issues is the submission of
the new utterance, so the prior utterance is cancelled before the new
one is submitted. -/
theorem handleSpeak_cancel_precedes_speak (s : AppState) :
    ∃ rest, (handleSpeak true s).2 = Command.cancel :: rest ∧
      ∀ c ∈ rest, ∃ u, c = Command.speak u := by
  by_cases h : s.text = ""
  · exact ⟨[], by simp [handleSpeak, h]⟩
  · refine ⟨[Command.speak
      { text := s.text,
        voice := s.voices.find? (fun v => v.voiceURI == s.selectedVoice),
        rate := s.rate, pitch := s.pitch }], ?_, ?_⟩
    · simp [handleSpeak, h]
    · intro c hc
      simp only [List.mem_singleton] at hc
      exact ⟨_, hc⟩

/-- C2: the `onstart` callback sets the playback flag to true, `onend`
and `onerror` set it to false, `onerror` performs exactly the same
state change as `onend` (no message is surfaced — the model has no
message channel and the states coincide), and `handleSpeak` itself
leaves the component state, in particular the playback flag, unchanged:
the transition to Speaking happens only via the start callback, never
synchronously at submission. -/
theorem callbacks_drive_playback (speaking : Bool) (s : AppState) :
    (onStart s).isPlaying = true ∧
    (onEnd s).isPlaying = false ∧
    (onError s).isPlaying = false ∧
    onError s = onEnd s ∧
    (handleSpeak speaking s).1 = s := by
  refine ⟨rfl, rfl, rfl, rfl, rfl⟩

/-- C3: `handleStop` unconditionally issues exactly one `cancel`
command and leaves the playback flag false (Idle), for every prior
state. -/
theorem handleStop_forces_idle (s : AppState) :
    (handleStop s).1.isPlaying = false ∧
    (handleStop s).2 = [Command.cancel] := by
  exact ⟨rfl, rfl⟩

/-- C4: a click of the Pause/Resume toggle can only occur while the
platform reports activity (the button is disabled otherwise,
`pauseDisabled`); in that case `handlePause` flips the playback flag
exactly once and issues exactly one platform command: `pause` when the
flag was true, `resume` when it was false, chosen by the locally
tracked flag. -/
theorem handlePause_toggles_once (speaking : Bool) (s : AppState)
    (h : speaking = true) :
    (handlePause speaking s).1.isPlaying = !s.isPlaying ∧
    (handlePause speaking s).2 =
      [if s.isPlaying then Command.pause else Command.resume] := by
  subst h
  exact ⟨rfl, rfl⟩

/-- Witness for C4 at a concrete input: platform speaking, local flag
true, so the flag flips to false and the single command is `pause`. -/
theorem handlePause_toggles_once_witness :
    (handlePause true { initialState with isPlaying := true }).1.isPlaying
        = !(true : Bool) ∧
    (handlePause true { initialState with isPlaying := true }).2 =
      [if ({ initialState with isPlaying := true } : AppState).isPlaying
        then Command.pause else Command.resume] :=
  handlePause_toggles_once true { initialState with isPlaying := true } rfl

/-- C5: whenever the text buffer is empty the Play button is disabled,
and even if `handleSpeak` runs it constructs no utterance request,
submits no `speak` command, and leaves all UI state unchanged. -/
theorem empty_text_play_noop (speaking : Bool) (s : AppState)
    (h : s.text = "") :
    playDisabled s = true ∧
    (handleSpeak speaking s).1 = s ∧
    ∀ u, Command.speak u ∉ (handleSpeak speaking s).2 := by
  refine ⟨?_, rfl, ?_⟩
  · simp [playDisabled, h]
  · intro u
    cases speaking <;> simp [handleSpeak, h]

/-- Witness for C5 at the initial state, whose text buffer is empty. -/
theorem empty_text_play_noop_witness :
    playDisabled initialState = true ∧
    (handleSpeak false initialState).1 = initialState ∧
    ∀ u, Command.speak u ∉ (handleSpeak false initialState).2 :=
  empty_text_play_noop false initialState rfl

/-- C6: `loadVoices` (run at initialization and on every voices-changed
notification) stores exactly the voices the platform returned; when the
list is non-empty the first entry becomes selected (in particular when
none was selected), and when the list is empty the selection is left
unchanged. -/
theorem loadVoices_stores_and_selects (availableVoices : List Voice)
    (s : AppState) :
    (loadVoices availableVoices s).voices = availableVoices ∧
    (loadVoices availableVoices s).selectedVoice =
      (match availableVoices with
       | [] => s.selectedVoice
       | v :: _ => v.voiceURI) := by
  cases availableVoices <;> simp [loadVoices]

/-- C7: when Play is pressed after the sliders last set rate `r` and
pitch `p` (slider values lie in `[0.5, 2.0]`, so clamping to that
interval is the identity on them) and the text buffer is non-empty, the
submitted utterance carries exactly those values: its rate equals `r`
and its pitch equals `p`, each equal to its clamp. -/
theorem rate_pitch_passed_clamped (speaking : Bool) (s : AppState)
    (r p : ℚ) (hr : 1/2 ≤ r ∧ r ≤ 2) (hp : 1/2 ≤ p ∧ p ≤ 2)
    (ht : s.text ≠ "") :
    ∃ u, Command.speak u ∈
        (handleSpeak speaking (setPitch p (setRate r s))).2 ∧
      u.rate = r ∧ u.pitch = p ∧
      u.rate = clampRange r ∧ u.pitch = clampRange p := by
  have hcr : clampRange r = r := by
    unfold clampRange
    rw [min_eq_right hr.2, max_eq_right hr.1]
  have hcp : clampRange p = p := by
    unfold clampRange
    rw [min_eq_right hp.2, max_eq_right hp.1]
  refine ⟨{ text := s.text,
            voice := s.voices.find? (fun v => v.voiceURI == s.selectedVoice),
            rate := r, pitch := p }, ?_, rfl, rfl, hcr.symm, hcp.symm⟩
  cases speaking <;> simp [handleSpeak, setRate, setPitch, ht]

/-- Witness for C7 at concrete inputs: rate 1 and pitch 1 on a
non-empty buffer. -/
theorem rate_pitch_passed_clamped_witness :
    ∃ u, Command.speak u ∈
        (handleSpeak false (setPitch 1 (setRate 1 sampleState))).2 ∧
      u.rate = 1 ∧ u.pitch = 1 ∧
      u.rate = clampRange 1 ∧ u.pitch = clampRange 1 :=
  rate_pitch_passed_clamped false sampleState 1 1
    (by norm_num) (by norm_num) (by decide)

/-- C8: for every Play invocation on a non-empty buffer, the voice of
the submitted utterance is `voices.find?` of the predicate matching
`voiceURI` against the selected id: any resolved voice is a catalog
entry whose `voiceURI` equals the selected id, and when no catalog
entry matches, the voice is `none` (the platform picks a default). -/
theorem voice_resolved_by_uri (speaking : Bool) (s : AppState)
    (ht : s.text ≠ "") :
    ∃ u, Command.speak u ∈ (handleSpeak speaking s).2 ∧
      u.voice = s.voices.find? (fun v => v.voiceURI == s.selectedVoice) ∧
      (∀ v, u.voice = some v → v ∈ s.voices ∧ v.voiceURI = s.selectedVoice) ∧
      ((∀ v ∈ s.voices, v.voiceURI ≠ s.selectedVoice) → u.voice = none) := by
  refine ⟨{ text := s.text,
            voice := s.voices.find? (fun v => v.voiceURI == s.selectedVoice),
            rate := s.rate, pitch := s.pitch }, ?_, rfl, ?_, ?_⟩
  · cases speaking <;> simp [handleSpeak, ht]
  · intro v hv
    refine ⟨List.mem_of_find?_eq_some hv, ?_⟩
    have hpv := List.find?_some hv
    simpa using hpv
  · intro hnone
    simp only [List.find?_eq_none]
    intro v hv
    simpa using hnone v hv

/-- Witness for C8 at a concrete input: empty catalog, so the voice
resolves to `none`. -/
theorem voice_resolved_by_uri_witness :
    ∃ u, Command.speak u ∈ (handleSpeak false sampleState).2 ∧
      u.voice = sampleState.voices.find?
        (fun v => v.voiceURI == sampleState.selectedVoice) ∧
      (∀ v, u.voice = some v →
        v ∈ sampleState.voices ∧ v.voiceURI = sampleState.selectedVoice) ∧
      ((∀ v ∈ sampleState.voices, v.voiceURI ≠ sampleState.selectedVoice) →
        u.voice = none) :=
  voice_resolved_by_uri false sampleState (by decide)

/-- C9: `handleDownload` produces a file named `speech-text.txt` whose
content is exactly the current text buffer, and the Download button is
disabled precisely when the text buffer is empty, so no file is
produced then. -/
theorem download_serializes_text (s : AppState) :
    (handleDownload s).filename = "speech-text.txt" ∧
    (handleDownload s).content = s.text ∧
    (downloadDisabled s = true ↔ s.text = "") := by
  refine ⟨rfl, rfl, ?_⟩
  simp [downloadDisabled]

/-- C10: the Play button is clickable (not disabled) exactly when the
text buffer is non-empty and the local playback flag is false; in
particular, whenever the flag is true the button is disabled, so the
cancel-and-replace Play path cannot be triggered through the UI while
the app reports active playback. -/
theorem play_clickable_iff (s : AppState) :
    playDisabled s = false ↔ (s.text ≠ "" ∧ s.isPlaying = false) := by
  simp [playDisabled]

end TTS
